import Mathlib

/-!
# Shallow embedding of the comics-paper backend (Express/Knex controllers)

This file embeds, as executable Lean definitions, the parts of the
repository that the verified properties talk about:

* `ComicController` (createComic, getAllComics omitted, getComic,
  updateComic, deleteComic, updateViewComic, hasComic, searchComic);
* `ComicChapterController` (createChapter, getChaptersFromComic,
  getChapter, updateChapterLength);
* the `UserRouter` handlers for signup, signin and `PUT /profile`.

The database is a record of lists of rows; every controller operation
returns the list of database events it issues together with its
JavaScript-level outcome (`Except` models a thrown error).  Transaction
semantics (`applyEvents`) applies staged effects only at `commit` and
discards them at `rollback`, so atomicity statements are about a
semantics that is independent of the operations themselves.
-/

deriving instance DecidableEq for Except

/-! ## JavaScript-value helpers

Optional request fields are `Option String`; `undefined`/absent is
`none`.  `jsFalsyStr` mirrors JavaScript truthiness of such a field
(`undefined`, `null` and `""` are falsy). -/

def jsFalsyStr : Option String → Bool
  | none => true
  | some s => s == ""

def jsTruthyStr (o : Option String) : Bool := !jsFalsyStr o

/-- JavaScript `x || d` on numbers for the chapter filter:
`undefined * anything` is `NaN`, and both `NaN || d` and `0 || d`
evaluate to `d`. -/
def jsOrNat : Option Nat → Nat → Nat
  | none, d => d
  | some n, d => if n == 0 then d else n

/-! ## validator.isUUID

Model of the `validator` library UUID shape check: five hyphen-separated
groups of hex digits of lengths 8-4-4-4-12. -/

def isHexChar (c : Char) : Bool :=
  c.isDigit || ('a' ≤ c && c ≤ 'f') || ('A' ≤ c && c ≤ 'F')

/-- Split a character list on a separator (the list-level counterpart
of splitting the string on a one-character separator). -/
def splitOnChar (sep : Char) : List Char → List (List Char)
  | [] => [[]]
  | c :: rest =>
    let r := splitOnChar sep rest
    if c == sep then [] :: r
    else
      match r with
      | [] => [[c]]
      | g :: gs => (c :: g) :: gs

def isHexGroup (g : List Char) (len : Nat) : Bool :=
  g.length == len && g.all isHexChar

def validator_isUUID (s : String) : Bool :=
  match splitOnChar '-' s.data with
  | [a, b, c, d, e] =>
      isHexGroup a 8 && isHexGroup b 4 && isHexGroup c 4 &&
      isHexGroup d 4 && isHexGroup e 12
  | _ => false

/-! ## slugify

Model of `slugify(name, { lower: true, remove: /[*+~.()'"!:@]/g })`:
drop the removed characters, trim spaces, collapse runs of spaces and
dashes into a single dash, lowercase (ASCII identity char map). -/

def slugRemoveSet : List Char :=
  ['*', '+', '~', '.', '(', ')', '\'', '\"', '!', ':', '@']

def slugRemoveChars (l : List Char) : List Char :=
  l.filter (fun c => !slugRemoveSet.contains c)

def isSpaceOrDash (c : Char) : Bool := c == ' ' || c == '-'

def slugTrim (l : List Char) : List Char :=
  ((l.dropWhile (fun c => c == ' ')).reverse.dropWhile (fun c => c == ' ')).reverse

/-- Collapse each run of spaces/dashes into a single dash
(the `replace(/[-\s]+/g, '-')` step). -/
def slugCollapse : List Char → List Char
  | [] => []
  | [c] => if isSpaceOrDash c then ['-'] else [c]
  | a :: b :: rest =>
      if isSpaceOrDash a && isSpaceOrDash b then slugCollapse (b :: rest)
      else (if isSpaceOrDash a then '-' else a) :: slugCollapse (b :: rest)

/-- ASCII lowercase of one character, as `toLowerCase` acts on ASCII. -/
def jsToLowerChar (c : Char) : Char :=
  if 65 ≤ c.toNat && c.toNat ≤ 90 then Char.ofNat (c.toNat + 32) else c

def slugify (name : String) : String :=
  String.mk (((slugCollapse (slugTrim (slugRemoveChars name.data)))).map jsToLowerChar)

/-! ## Table rows and the database state -/

structure ComicRow where
  id : String
  name : String
  description : String
  postedBy : String
  thumbnail : Option String
  createdAt : Nat
  updatedAt : Nat
  slug : String
  likes : Nat
  views : Nat
  author : String
  category : String
  deriving Repr, DecidableEq

structure ComicBookTagRow where
  comicId : String
  tagId : String
  deriving Repr, DecidableEq

structure ComicTagRow where
  id : String
  keyword : String
  deriving Repr, DecidableEq

structure ResourceRow where
  id : String
  fileName : String
  deriving Repr, DecidableEq

structure ComicChapterRow where
  id : String
  name : String
  comicId : String
  postedBy : String
  viewType : Nat
  createdAt : Nat
  updatedAt : Nat
  length : Nat
  deriving Repr, DecidableEq

structure UserRow where
  id : String
  username : String
  password : String
  email : String
  nickname : String
  introduction : String
  deriving Repr, DecidableEq

/-- One row of `user_permissions`: the user belongs to a permission
group. -/
structure UserPermissionRow where
  userId : String
  permissionGroup : Nat
  deriving Repr, DecidableEq

/-- One row of `permission_relationships`: the group holds the
permission. -/
structure PermissionRelationshipRow where
  permissionGroup : Nat
  permissionId : Nat
  deriving Repr, DecidableEq

structure DB where
  comics : List ComicRow
  comicBookTags : List ComicBookTagRow
  comicTags : List ComicTagRow
  resources : List ResourceRow
  comicChapters : List ComicChapterRow
  users : List UserRow
  userPermissions : List UserPermissionRow
  permissionRelationships : List PermissionRelationshipRow
  deriving Repr, DecidableEq

/-! ## Database events and their semantics

Every controller operation returns the ordered list of events it sent to
the database.  `begin`, `commit` and `rollback` delimit a transaction;
everything else is a query.  `applyEvents` gives the resulting database:
effects inside a transaction become visible only at `commit` and are
discarded at `rollback` (or when the transaction never completes). -/

structure UserProfilePatch where
  nickname : Option String
  introduction : Option String
  deriving Repr, DecidableEq

structure ComicPatch where
  name : String
  description : String
  updatedAt : Nat
  slug : String
  author : String
  category : String
  thumbnail : Option String
  deriving Repr, DecidableEq

inductive DBEvent where
  | beginTx : DBEvent
  | commit : DBEvent
  | rollback : DBEvent
  | insertComic (c : ComicRow) : DBEvent
  | insertComicBookTags (rows : List ComicBookTagRow) : DBEvent
  | selectComicById (id : String) : DBEvent
  | selectResourceById (id : Option String) : DBEvent
  | selectTagsOfComic (comicId : String) : DBEvent
  | updateComicById (id : String) (p : ComicPatch) : DBEvent
  | deleteComicById (id : String) : DBEvent
  | incrementViews (id : String) : DBEvent
  | selectComicBySlugOrId (slug : String) (id : String) : DBEvent
  | insertChapter (c : ComicChapterRow) : DBEvent
  | selectChaptersOfComic (comicId : String) (lim off : Nat)
      (sortedBy order : String) : DBEvent
  | selectChapterById (id : String) : DBEvent
  | updateChapterLengthById (id : String) (len : Nat) : DBEvent
  | selectUserByUsername (username : String) : DBEvent
  | insertUser (u : UserRow) : DBEvent
  | updateUserProfileById (id : String) (p : UserProfilePatch) : DBEvent
  deriving Repr, DecidableEq

def DBEvent.isQuery : DBEvent → Bool
  | .beginTx => false
  | .commit => false
  | .rollback => false
  | _ => true

/-- Effect of a single (write) event on the database; reads change
nothing. -/
def applyEvent (db : DB) : DBEvent → DB
  | .insertComic c => { db with comics := db.comics ++ [c] }
  | .insertComicBookTags rows =>
      { db with comicBookTags := db.comicBookTags ++ rows }
  | .updateComicById id p =>
      { db with comics := db.comics.map (fun c =>
          if c.id == id then
            { c with name := p.name, description := p.description,
                     updatedAt := p.updatedAt, slug := p.slug,
                     author := p.author, category := p.category,
                     thumbnail := p.thumbnail }
          else c) }
  | .deleteComicById id =>
      { db with comics := db.comics.filter (fun c => !(c.id == id)) }
  | .incrementViews id =>
      { db with comics := db.comics.map (fun c =>
          if c.id == id then { c with views := c.views + 1 } else c) }
  | .insertChapter c => { db with comicChapters := db.comicChapters ++ [c] }
  | .updateChapterLengthById id len =>
      { db with comicChapters := db.comicChapters.map (fun c =>
          if c.id == id then { c with length := len } else c) }
  | .insertUser u => { db with users := db.users ++ [u] }
  | .updateUserProfileById id p =>
      { db with users := db.users.map (fun u =>
          if u.id == id then
            { u with
                nickname := match p.nickname with
                  | some n => n
                  | none => u.nickname,
                introduction := match p.introduction with
                  | some i => i
                  | none => u.introduction }
          else u) }
  | _ => db

mutual

/-- Apply a trace of events outside any transaction. -/
def applyEvents (db : DB) : List DBEvent → DB
  | [] => db
  | .beginTx :: rest => applyEventsTx db db rest
  | e :: rest => applyEvents (applyEvent db e) rest

/-- Apply a trace inside a transaction: `base` is the state at
`beginTx`, `staged` accumulates uncommitted work.  A `commit` publishes
`staged`; a `rollback` (or a trace that ends without either) restores
`base`. -/
def applyEventsTx (base staged : DB) : List DBEvent → DB
  | [] => base
  | .commit :: rest => applyEvents staged rest
  | .rollback :: rest => applyEvents base rest
  | e :: rest => applyEventsTx base (applyEvent staged e) rest

end

/-! ## ComicController (src: comic controller module)

Each operation mirrors the TypeScript line by line.  `uuid()` and
`new Date()` are environment inputs, so they are explicit arguments
(`id`, `now`).  The untyped `tags` argument is `Option (List String)`:
`none` models a caller passing `undefined`, on which `tags.map` throws
inside the transaction. -/

structure TagView where
  id : String
  keyword : String
  deriving Repr, DecidableEq

/-- Return shape of `getComic`: `{ ...comic, thumbnailImg, tags }`. -/
structure ComicView where
  row : ComicRow
  thumbnailImg : String
  tags : List TagView
  deriving Repr, DecidableEq

def createComic (db : DB) (id name description postedBy author category : String)
    (tags : Option (List String)) (thumbnail : Option String) (now : Nat) :
    List DBEvent × Except String ComicRow :=
  let comic : ComicRow :=
    { id := id, name := name, description := description, postedBy := postedBy,
      thumbnail := thumbnail, createdAt := now, updatedAt := now,
      slug := slugify name, likes := 0, views := 0,
      author := author, category := category }
  if db.comics.any (fun c => c.id == id) then
    ([.beginTx, .insertComic comic, .rollback], .error "duplicate primary key")
  else
    match tags with
    | none =>
        ([.beginTx, .insertComic comic, .rollback],
         .error "TypeError: tags.map is not a function")
    | some ts =>
        let insertTags := ts.map (fun t => ComicBookTagRow.mk id t)
        ([.beginTx, .insertComic comic, .insertComicBookTags insertTags, .commit],
         .ok comic)

def getComic (db : DB) (id : String) :
    List DBEvent × Except String ComicView :=
  if id == "" || !validator_isUUID id then
    ([], .error "id is required")
  else
    match db.comics.find? (fun c => c.id == id) with
    | none =>
        ([.selectComicById id], .error "TypeError: cannot read thumbnail of undefined")
    | some comic =>
        match db.resources.find? (fun r => some r.id == comic.thumbnail) with
        | none =>
            ([.selectComicById id, .selectResourceById comic.thumbnail],
             .error "TypeError: cannot read fileName of undefined")
        | some thumbnailInfo =>
            let tags := (db.comicBookTags.filter (fun bt => bt.comicId == id)).filterMap
              (fun bt => (db.comicTags.find? (fun t => t.id == bt.tagId)).map
                (fun t => TagView.mk bt.tagId t.keyword))
            ([.selectComicById id, .selectResourceById comic.thumbnail,
              .selectTagsOfComic id],
             .ok ⟨comic, thumbnailInfo.fileName, tags⟩)

def updateComic (db : DB) (id name description author category : String)
    (tags : Option (List String)) (thumbnail : Option String) (now : Nat) :
    List DBEvent × Except String Unit :=
  if id == "" || !validator_isUUID id then
    ([], .error "id is required")
  else
    let patch : ComicPatch :=
      { name := name, description := description, updatedAt := now,
        slug := slugify name, author := author, category := category,
        thumbnail := thumbnail }
    match tags with
    | none =>
        ([.beginTx, .updateComicById id patch, .rollback],
         .error "TypeError: tags.map is not a function")
    | some ts =>
        let insertTags := ts.map (fun t => ComicBookTagRow.mk id t)
        ([.beginTx, .updateComicById id patch,
          .insertComicBookTags insertTags, .commit], .ok ())

def deleteComic (db : DB) (id : String) : List DBEvent × Except String Unit :=
  if id == "" || !validator_isUUID id then
    ([], .error "id is required")
  else
    ([.deleteComicById id], .ok ())

def updateViewComic (db : DB) (id : String) : List DBEvent × Except String Unit :=
  if id == "" || !validator_isUUID id then
    ([], .error "id is required")
  else
    ([.incrementViews id], .ok ())

def hasComic (db : DB) (id : String) : List DBEvent × Except String Bool :=
  if id == "" || !validator_isUUID id then
    ([], .error "id is required")
  else
    ([.selectComicById id], .ok (db.comics.any (fun c => c.id == id)))

/-- Model of `searchComic`: no shape validation at all; empty-string
defaults are substituted for missing fields and the lookup query is
issued unconditionally. -/
def searchComic (db : DB) (slug id : Option String) :
    List DBEvent × Except String (Option ComicRow) :=
  let slugVal := slug.getD ""
  let idVal := id.getD ""
  ([.selectComicBySlugOrId slugVal idVal],
   .ok ((db.comics.filter (fun c => c.slug == slugVal || c.id == idVal)).head?))

/-! ## ComicChapterController -/

structure ChapterFilter where
  limit : Option Nat
  page : Option Nat
  sortedBy : Option String
  order : Option String
  deriving Repr, DecidableEq

/-- JavaScript `o || d` on an optional string (empty string is falsy). -/
def jsOrStr : Option String → String → String
  | none, d => d
  | some s, d => if s == "" then d else s

def createChapter (db : DB) (id name comicId postedBy : String)
    (viewType : Nat) (now : Nat) :
    List DBEvent × Except String ComicChapterRow :=
  if name == "" || comicId == "" || postedBy == "" then
    ([], .error "Missing parameters")
  else if !validator_isUUID comicId then
    ([], .error "Comic id must be a uuid")
  else if !validator_isUUID postedBy then
    ([], .error "Posted by must be a uuid")
  else
    let chapter : ComicChapterRow :=
      { id := id, name := name, comicId := comicId, postedBy := postedBy,
        viewType := viewType, createdAt := now, updatedAt := now, length := 0 }
    ([.insertChapter chapter], .ok chapter)

/-- SQL `ORDER BY field` comparison between two chapter rows. -/
def chapterFieldLe (field : String) (a b : ComicChapterRow) : Bool :=
  match field with
  | "id" => decide (a.id ≤ b.id)
  | "name" => decide (a.name ≤ b.name)
  | "comicId" => decide (a.comicId ≤ b.comicId)
  | "postedBy" => decide (a.postedBy ≤ b.postedBy)
  | "viewType" => a.viewType ≤ b.viewType
  | "createdAt" => a.createdAt ≤ b.createdAt
  | "updatedAt" => a.updatedAt ≤ b.updatedAt
  | "length" => a.length ≤ b.length
  | _ => true

def insertLe {α : Type} (le : α → α → Bool) (a : α) : List α → List α
  | [] => [a]
  | b :: rest => if le a b then a :: b :: rest else b :: insertLe le a rest

/-- Insertion sort: the model of SQL `ORDER BY`. -/
def sortLe {α : Type} (le : α → α → Bool) : List α → List α
  | [] => []
  | a :: rest => insertLe le a (sortLe le rest)

def getChaptersFromComic (db : DB) (comicId : String)
    (filter : Option ChapterFilter) :
    List DBEvent × Except String (List ComicChapterRow) :=
  if comicId == "" || !validator_isUUID comicId then
    ([], .error "id is required")
  else
    let lim := jsOrNat (filter.bind (fun f => f.limit)) 3
    let off :=
      match filter.bind (fun f => f.page), filter.bind (fun f => f.limit) with
      | some p, some l => p * l
      | _, _ => 0
    let sortedBy := jsOrStr (filter.bind (fun f => f.sortedBy)) "createdAt"
    let order := jsOrStr (filter.bind (fun f => f.order)) "asc"
    let le := fun a b =>
      if order == "desc" then chapterFieldLe sortedBy b a
      else chapterFieldLe sortedBy a b
    let rows := sortLe le (db.comicChapters.filter (fun c => c.comicId == comicId))
    ([.selectChaptersOfComic comicId lim off sortedBy order],
     .ok ((rows.drop off).take lim))

def getChapter (db : DB) (id : String) :
    List DBEvent × Except String (Option ComicChapterRow) :=
  if id == "" || !validator_isUUID id then
    ([], .error "id is required")
  else
    ([.selectChapterById id],
     .ok ((db.comicChapters.filter (fun c => c.id == id)).head?))

def updateChapterLength (db : DB) (chapterId : String) (length : Nat) :
    List DBEvent × Except String Unit :=
  if chapterId == "" || !validator_isUUID chapterId then
    ([], .error "id is required")
  else
    ([.updateChapterLengthById chapterId length], .ok ())

/-! ## Spec-modelled auth components

The `User` class, `UserController`, `ValidatorUtils`, `TokenUtils` and
the bcrypt library are referenced by the user router but their sources
are not part of the embedded code base, so they are modelled from the
specification.  The nickname/introduction/email format predicates are
left as explicit function arguments of the handlers: the router is
parametric in their behaviour. -/

/-- Modelled from the spec: the `PermissionEnum` entry naming the
profile-update permission flag; the concrete numeric tag is irrelevant
to every property proved here. -/
def PermissionEnum_USER_UPDATE_PROFILE : Nat := 8

/-- Modelled from the spec: the `User` class (not under the embedded
sources) exposes a permission-query capability resolving the user
permission group to the group permission set; `hasPermission` tests
membership of a named permission flag in that set. -/
def userHasPermission (db : DB) (userId : String) (permissionId : Nat) : Bool :=
  (db.userPermissions.filter (fun up => up.userId == userId)).any (fun up =>
    db.permissionRelationships.any (fun pr =>
      pr.permissionGroup == up.permissionGroup &&
      pr.permissionId == permissionId))

/-- Modelled from the spec: bcrypt password hashing (`hashSync`); an
injective tagging stands in for the real digest. -/
def bcrypt_hashSync (password : String) : String :=
  "bcrypt-digest-of:" ++ password

/-- Modelled from the spec: bcrypt `compareSync` succeeds exactly when
the candidate password hashes to the stored digest. -/
def bcrypt_compareSync (password stored : String) : Bool :=
  stored == bcrypt_hashSync password

/-- Modelled from the spec: `generateToken` issues an opaque signed
token embedding the user id and the issuance time. -/
def generateToken (id : String) (generatedAt : Nat) : String :=
  "signed:" ++ id ++ ":" ++ toString generatedAt

/-! ## Locale response messages (symbolic) -/

def Locale_MissingRequiredFields : String := "MissingRequiredFields"
def Locale_InvalidNickname : String := "InvalidNickname"
def Locale_InvalidEmail : String := "InvalidEmail"
def Locale_InvalidIntroduction : String := "InvalidIntroduction"
def Locale_UserAlreadyExists : String := "UserAlreadyExists"
def Locale_UserNotFound : String := "UserNotFound"
def Locale_IncorrectPassword : String := "IncorrectPassword"
def Locale_NoTokenProvided : String := "NoTokenProvided"
def Locale_Unauthorized : String := "Unauthorized"

/-! ## UserRouter handlers -/

structure SignupBody where
  username : Option String
  password : Option String
  email : Option String
  nickname : Option String
  introduction : Option String
  deriving Repr, DecidableEq

/-- The 201 response body of signup: the created user minus password. -/
structure FilteredUser where
  id : String
  username : String
  email : String
  nickname : String
  introduction : String
  deriving Repr, DecidableEq

inductive SignupResult where
  | nextError (status : Nat) (message : String) : SignupResult
  | created (status : Nat) (u : FilteredUser) : SignupResult
  deriving Repr, DecidableEq

/-- Handler of `POST /signup`.  `newId` stands for the uuid generated inside
`UserController.createUser` (modelled from the spec: createUser stores a
hashed password and returns the created user). -/
def signupHandler (db : DB) (body : SignupBody)
    (isValidNickname : Option String → Bool)
    (isEmail : String → Bool)
    (isValidIntroduction : Option String → Bool)
    (newId : String) : List DBEvent × SignupResult :=
  if jsFalsyStr body.username || jsFalsyStr body.password ||
      jsFalsyStr body.email || jsFalsyStr body.nickname then
    ([], .nextError 400 Locale_MissingRequiredFields)
  else if !isValidNickname body.nickname then
    ([], .nextError 400 Locale_InvalidNickname)
  else if !isEmail (body.email.getD "") then
    ([], .nextError 400 Locale_InvalidEmail)
  else if !isValidIntroduction body.introduction then
    ([], .nextError 400 Locale_InvalidIntroduction)
  else if db.users.any (fun u => u.username == body.username.getD "") then
    ([.selectUserByUsername (body.username.getD "")],
     .nextError 400 Locale_UserAlreadyExists)
  else
    let responseUser : UserRow :=
      { id := newId, username := body.username.getD "",
        password := bcrypt_hashSync (body.password.getD ""),
        email := body.email.getD "", nickname := body.nickname.getD "",
        introduction := (body.introduction).getD "" }
    ([.selectUserByUsername (body.username.getD ""), .insertUser responseUser],
     .created 201
       ⟨responseUser.id, responseUser.username, responseUser.email,
        responseUser.nickname, responseUser.introduction⟩)

inductive SigninResult where
  | nextError (status : Nat) (message : String) : SigninResult
  | token (t : String) : SigninResult
  deriving Repr, DecidableEq

/-- Handler of `POST /signin`. -/
def signinHandler (db : DB) (username password : Option String) (now : Nat) :
    List DBEvent × SigninResult :=
  if jsFalsyStr username || jsFalsyStr password then
    ([], .nextError 400 Locale_MissingRequiredFields)
  else
    match db.users.find? (fun u => u.username == username.getD "") with
    | none =>
        ([.selectUserByUsername (username.getD "")],
         .nextError 400 Locale_UserNotFound)
    | some user =>
        if !bcrypt_compareSync (password.getD "") user.password then
          ([.selectUserByUsername (username.getD "")],
           .nextError 400 Locale_IncorrectPassword)
        else
          ([.selectUserByUsername (username.getD "")],
           .token (generateToken user.id now))

inductive ProfilePutResult where
  | nextError (status : Nat) (message : String) : ProfilePutResult
  | statusEnd (code : Nat) : ProfilePutResult
  deriving Repr, DecidableEq

/-- Handler of `PUT /profile`.  `tokenPresent`/`userRequest` are what the `getAuth`
middleware attached to the request; the body carries the optional
`nickname` and `introduction` fields.  `UserController.updateUserProfile`
is modelled from the spec as the profile-field update event. -/
def putProfileHandler (db : DB) (tokenPresent : Bool)
    (userRequest : Option UserRow)
    (nickname introduction : Option String)
    (isValidNickname : Option String → Bool)
    (isValidIntroduction : Option String → Bool) :
    List DBEvent × ProfilePutResult :=
  if !tokenPresent then
    ([], .nextError 400 Locale_NoTokenProvided)
  else
    match userRequest with
    | none => ([], .nextError 401 Locale_Unauthorized)
    | some user =>
        if !userHasPermission db user.id PermissionEnum_USER_UPDATE_PROFILE then
          ([], .nextError 401 Locale_Unauthorized)
        else if jsFalsyStr nickname && jsFalsyStr introduction then
          ([], .statusEnd 304)
        else if jsTruthyStr nickname && !isValidNickname nickname then
          ([], .nextError 400 Locale_InvalidNickname)
        else if jsTruthyStr introduction && !isValidIntroduction introduction then
          ([], .nextError 400 Locale_InvalidIntroduction)
        else
          ([.updateUserProfileById user.id ⟨nickname, introduction⟩],
           .statusEnd 204)

/-! ## Helper lemmas -/

theorem mem_insertLe {α : Type} {le : α → α → Bool} {a x : α} :
    ∀ {l : List α}, x ∈ insertLe le a l → x = a ∨ x ∈ l := by
  intro l
  induction l with
  | nil => intro h; simp [insertLe] at h; exact Or.inl h
  | cons b rest ih =>
    intro h
    unfold insertLe at h
    by_cases hle : le a b = true
    · rw [if_pos hle] at h
      rcases List.mem_cons.mp h with h | h
      · exact Or.inl h
      · exact Or.inr h
    · rw [if_neg hle] at h
      rcases List.mem_cons.mp h with h | h
      · exact Or.inr (List.mem_cons.mpr (Or.inl h))
      · rcases ih h with h | h
        · exact Or.inl h
        · exact Or.inr (List.mem_cons.mpr (Or.inr h))

theorem pairwise_insertLe {α : Type} {le : α → α → Bool}
    (htot : ∀ a b, le a b = true ∨ le b a = true)
    (htrans : ∀ a b c, le a b = true → le b c = true → le a c = true)
    {a : α} :
    ∀ {l : List α}, l.Pairwise (fun x y => le x y = true) →
      (insertLe le a l).Pairwise (fun x y => le x y = true) := by
  intro l
  induction l with
  | nil => intro _; simp [insertLe]
  | cons b rest ih =>
    intro hl
    rw [List.pairwise_cons] at hl
    obtain ⟨hb, hrest⟩ := hl
    unfold insertLe
    by_cases hle : le a b = true
    · rw [if_pos hle]
      rw [List.pairwise_cons]
      constructor
      · intro y hy
        rcases List.mem_cons.mp hy with h | h
        · rw [h]; exact hle
        · exact htrans a b y hle (hb y h)
      · rw [List.pairwise_cons]
        exact ⟨hb, hrest⟩
    · rw [if_neg hle]
      rw [List.pairwise_cons]
      constructor
      · intro y hy
        rcases mem_insertLe hy with h | h
        · rw [h]
          rcases htot a b with h2 | h2
          · exact absurd h2 hle
          · exact h2
        · exact hb y h
      · exact ih hrest

theorem pairwise_sortLe {α : Type} {le : α → α → Bool}
    (htot : ∀ a b, le a b = true ∨ le b a = true)
    (htrans : ∀ a b c, le a b = true → le b c = true → le a c = true)
    (l : List α) :
    (sortLe le l).Pairwise (fun x y => le x y = true) := by
  induction l with
  | nil => simp [sortLe]
  | cons a rest ih => exact pairwise_insertLe htot htrans ih

theorem mem_slugCollapse {c : Char} :
    ∀ {l : List Char}, c ∈ slugCollapse l → c = '-' ∨ c ∈ l := by
  intro l
  induction l with
  | nil => intro h; simp [slugCollapse] at h
  | cons a rest ih =>
    intro h
    cases rest with
    | nil =>
      unfold slugCollapse at h
      by_cases ha : isSpaceOrDash a = true
      · rw [if_pos ha] at h
        simp at h
        exact Or.inl h
      · rw [if_neg ha] at h
        simp at h
        exact Or.inr (by rw [h]; exact List.mem_cons_self a [])
    | cons b rest2 =>
      unfold slugCollapse at h
      by_cases hab : (isSpaceOrDash a && isSpaceOrDash b) = true
      · rw [if_pos hab] at h
        rcases ih h with h | h
        · exact Or.inl h
        · exact Or.inr (List.mem_cons.mpr (Or.inr h))
      · rw [if_neg hab] at h
        rcases List.mem_cons.mp h with h | h
        · by_cases ha : isSpaceOrDash a = true
          · rw [if_pos ha] at h; exact Or.inl h
          · rw [if_neg ha] at h
            exact Or.inr (by rw [h]; exact List.mem_cons_self a _)
        · rcases ih h with h | h
          · exact Or.inl h
          · exact Or.inr (List.mem_cons.mpr (Or.inr h))

theorem mem_slugTrim {c : Char} {l : List Char} (h : c ∈ slugTrim l) : c ∈ l := by
  unfold slugTrim at h
  rw [List.mem_reverse] at h
  have h2 := (List.dropWhile_sublist _).mem h
  rw [List.mem_reverse] at h2
  exact (List.dropWhile_sublist _).mem h2

theorem mem_slugRemoveChars {c : Char} {l : List Char}
    (h : c ∈ slugRemoveChars l) : slugRemoveSet.contains c = false := by
  unfold slugRemoveChars at h
  have := (List.mem_filter.mp h).2
  simpa using this

theorem contains_slugRemoveSet_bound {c : Char}
    (h : slugRemoveSet.contains c = true) : c.toNat ≤ 64 ∨ c.toNat = 126 := by
  have hmem : c ∈ slugRemoveSet := by
    rw [List.contains_eq_any_beq, List.any_eq_true] at h
    obtain ⟨x, hx, hbeq⟩ := h
    rw [beq_iff_eq] at hbeq
    rw [hbeq]
    exact hx
  fin_cases hmem <;> decide

theorem char_toNat_ofNat_of_lt {n : Nat} (h : n < 55296) :
    (Char.ofNat n).toNat = n := by
  unfold Char.ofNat
  have hv : n.isValidChar := Or.inl h
  rw [dif_pos hv]
  simp [Char.ofNatAux, Char.toNat, UInt32.toNat, BitVec.toNat_ofNatLt]

theorem jsToLowerChar_not_removed_not_upper {c : Char}
    (hc : slugRemoveSet.contains c = false) :
    slugRemoveSet.contains (jsToLowerChar c) = false ∧
      ¬(65 ≤ (jsToLowerChar c).toNat ∧ (jsToLowerChar c).toNat ≤ 90) := by
  unfold jsToLowerChar
  by_cases hup : (65 ≤ c.toNat && c.toNat ≤ 90) = true
  · rw [if_pos hup]
    simp only [Bool.and_eq_true, decide_eq_true_eq] at hup
    have hlt : c.toNat + 32 < 55296 := by omega
    have htn : (Char.ofNat (c.toNat + 32)).toNat = c.toNat + 32 :=
      char_toNat_ofNat_of_lt hlt
    constructor
    · by_contra hcon
      rw [Bool.not_eq_false] at hcon
      rcases contains_slugRemoveSet_bound hcon with hb | hb <;> omega
    · intro hcon
      omega
  · rw [if_neg hup]
    simp only [Bool.and_eq_true, decide_eq_true_eq, not_and] at hup
    constructor
    · exact hc
    · intro hcon
      omega

/-- Every character of a slug is neither one of the removed punctuation
characters nor an uppercase ASCII letter. -/
theorem slugify_char_property (s : String) :
    ∀ c ∈ (slugify s).data,
      slugRemoveSet.contains c = false ∧
        ¬(65 ≤ c.toNat ∧ c.toNat ≤ 90) := by
  intro c hc
  unfold slugify at hc
  rw [List.mem_map] at hc
  obtain ⟨c0, hc0, hmap⟩ := hc
  have hbase : slugRemoveSet.contains c0 = false := by
    rcases mem_slugCollapse hc0 with h | h
    · rw [h]; decide
    · exact mem_slugRemoveChars (mem_slugTrim h)
  rw [← hmap]
  exact jsToLowerChar_not_removed_not_upper hbase

/-! ## Claims -/

/-- C10: for every well-formed UUID id with no stored comic, `getComic`
issues the comic lookup and then throws (dereferencing `thumbnail` on the
absent record) instead of returning an empty or null result. -/
theorem C10_getComic_missing_comic_throws (db : DB) (id : String)
    (hvalid : validator_isUUID id = true)
    (habsent : db.comics.find? (fun c => c.id == id) = none) :
    getComic db id =
      ([.selectComicById id],
       .error "TypeError: cannot read thumbnail of undefined") := by
  have hne : (id == "") = false := by
    by_contra hc
    rw [Bool.not_eq_false, beq_iff_eq] at hc
    rw [hc] at hvalid
    exact absurd hvalid (by decide)
  simp [getComic, hne, hvalid, habsent]

/-- Witness for C10 at a concrete UUID and the empty database. -/
theorem C10_getComic_missing_comic_throws_witness :
    getComic (DB.mk [] [] [] [] [] [] [] [])
        "11111111-1111-4111-9111-111111111111" =
      ([.selectComicById "11111111-1111-4111-9111-111111111111"],
       .error "TypeError: cannot read thumbnail of undefined") :=
  C10_getComic_missing_comic_throws (DB.mk [] [] [] [] [] [] [] [])
    "11111111-1111-4111-9111-111111111111" (by decide) (by decide)

/-- C2 counterexample: `searchComic` is an id-accepting operation of the
comic controller, yet on a non-UUID id it throws nothing and issues its
lookup query. -/
theorem C2_counterexample_searchComic_skips_uuid_check :
    validator_isUUID "not-a-uuid" = false ∧
    searchComic (DB.mk [] [] [] [] [] [] [] []) none (some "not-a-uuid") =
      ([DBEvent.selectComicBySlugOrId "" "not-a-uuid"], .ok none) ∧
    DBEvent.isQuery (DBEvent.selectComicBySlugOrId "" "not-a-uuid") = true :=
  ⟨by decide, by decide, by decide⟩

/-- C2 (amended): every id-accepting operation of the comic and chapter
controllers except `searchComic` — getComic, updateComic, deleteComic,
updateViewComic, hasComic, getChapter, getChaptersFromComic,
updateChapterLength — throws `id is required` on a non-UUID id before
issuing any database query (empty event trace); `searchComic` issues its
query regardless of the shape of the id. -/
theorem C2_amended_nonuuid_rejected_before_query (db : DB) (id : String)
    (h : (id == "" || !validator_isUUID id) = true) :
    getComic db id = ([], .error "id is required") ∧
    (∀ name description author category tags thumbnail now,
        updateComic db id name description author category tags thumbnail now =
          ([], .error "id is required")) ∧
    deleteComic db id = ([], .error "id is required") ∧
    updateViewComic db id = ([], .error "id is required") ∧
    hasComic db id = ([], .error "id is required") ∧
    (∀ filter, getChaptersFromComic db id filter = ([], .error "id is required")) ∧
    getChapter db id = ([], .error "id is required") ∧
    (∀ len, updateChapterLength db id len = ([], .error "id is required")) := by
  refine ⟨?_, ?_, ?_, ?_, ?_, ?_, ?_, ?_⟩ <;> intros <;>
    simp [getComic, updateComic, deleteComic, updateViewComic, hasComic,
      getChaptersFromComic, getChapter, updateChapterLength, h]

/-- Witness for the amended C2 at the concrete non-UUID id `zzz`. -/
theorem C2_amended_nonuuid_rejected_before_query_witness :
    getComic (DB.mk [] [] [] [] [] [] [] []) "zzz" = ([], .error "id is required") ∧
    (∀ name description author category tags thumbnail now,
        updateComic (DB.mk [] [] [] [] [] [] [] []) "zzz" name description author
          category tags thumbnail now = ([], .error "id is required")) ∧
    deleteComic (DB.mk [] [] [] [] [] [] [] []) "zzz" = ([], .error "id is required") ∧
    updateViewComic (DB.mk [] [] [] [] [] [] [] []) "zzz" = ([], .error "id is required") ∧
    hasComic (DB.mk [] [] [] [] [] [] [] []) "zzz" = ([], .error "id is required") ∧
    (∀ filter, getChaptersFromComic (DB.mk [] [] [] [] [] [] [] []) "zzz" filter =
        ([], .error "id is required")) ∧
    getChapter (DB.mk [] [] [] [] [] [] [] []) "zzz" = ([], .error "id is required") ∧
    (∀ len, updateChapterLength (DB.mk [] [] [] [] [] [] [] []) "zzz" len =
        ([], .error "id is required")) :=
  C2_amended_nonuuid_rejected_before_query (DB.mk [] [] [] [] [] [] [] []) "zzz"
    (by decide)

/-- C1: when the authenticated user of a `PUT /profile` request lacks the
USER_UPDATE_PROFILE permission, the handler answers 401 Unauthorized with
an empty event trace, so no profile update reaches the database. -/
theorem C1_profile_update_permission_gate (db : DB) (user : UserRow)
    (nickname introduction : Option String)
    (vN vI : Option String → Bool)
    (h : userHasPermission db user.id PermissionEnum_USER_UPDATE_PROFILE = false) :
    putProfileHandler db true (some user) nickname introduction vN vI =
      ([], .nextError 401 Locale_Unauthorized) ∧
    applyEvents db
      (putProfileHandler db true (some user) nickname introduction vN vI).1 = db := by
  refine ⟨?_, ?_⟩ <;> simp [putProfileHandler, h, applyEvents]

/-- Witness for C1: a user whose permission group grants nothing. -/
theorem C1_profile_update_permission_gate_witness :
    putProfileHandler
        (DB.mk [] [] [] [] [] [UserRow.mk "u1" "ann" "x" "a@x.com" "Ann" ""]
          [UserPermissionRow.mk "u1" 1] [])
        true (some (UserRow.mk "u1" "ann" "x" "a@x.com" "Ann" ""))
        (some "NewNick") none (fun _ => true) (fun _ => true) =
      ([], .nextError 401 Locale_Unauthorized) ∧
    applyEvents
        (DB.mk [] [] [] [] [] [UserRow.mk "u1" "ann" "x" "a@x.com" "Ann" ""]
          [UserPermissionRow.mk "u1" 1] [])
        (putProfileHandler
          (DB.mk [] [] [] [] [] [UserRow.mk "u1" "ann" "x" "a@x.com" "Ann" ""]
            [UserPermissionRow.mk "u1" 1] [])
          true (some (UserRow.mk "u1" "ann" "x" "a@x.com" "Ann" ""))
          (some "NewNick") none (fun _ => true) (fun _ => true)).1 =
      (DB.mk [] [] [] [] [] [UserRow.mk "u1" "ann" "x" "a@x.com" "Ann" ""]
        [UserPermissionRow.mk "u1" 1] []) :=
  C1_profile_update_permission_gate
    (DB.mk [] [] [] [] [] [UserRow.mk "u1" "ann" "x" "a@x.com" "Ann" ""]
      [UserPermissionRow.mk "u1" 1] [])
    (UserRow.mk "u1" "ann" "x" "a@x.com" "Ann" "")
    (some "NewNick") none (fun _ => true) (fun _ => true) (by decide)

/-- C9 counterexample: an authenticated request with no fields by a user
without the USER_UPDATE_PROFILE permission gets 401, not the 304 the
claim promises, because the permission check runs first. -/
theorem C9_counterexample_permission_check_precedes_304 :
    putProfileHandler
        (DB.mk [] [] [] [] [] [UserRow.mk "u1" "ann" "x" "a@x.com" "Ann" ""]
          [UserPermissionRow.mk "u1" 1] [])
        true (some (UserRow.mk "u1" "ann" "x" "a@x.com" "Ann" ""))
        none none (fun _ => true) (fun _ => true) =
      ([], .nextError 401 Locale_Unauthorized) ∧
    ProfilePutResult.nextError 401 Locale_Unauthorized ≠
      ProfilePutResult.statusEnd 304 :=
  ⟨by decide, by decide⟩

/-- C9 (amended): an authenticated `PUT /profile` request by a user who
holds USER_UPDATE_PROFILE and supplies neither nickname nor introduction
gets 304 with an empty event trace, leaving the stored rows unchanged. -/
theorem C9_amended_empty_update_304_unchanged (db : DB) (user : UserRow)
    (nickname introduction : Option String) (vN vI : Option String → Bool)
    (hperm : userHasPermission db user.id PermissionEnum_USER_UPDATE_PROFILE = true)
    (hn : jsFalsyStr nickname = true) (hi : jsFalsyStr introduction = true) :
    putProfileHandler db true (some user) nickname introduction vN vI =
      ([], .statusEnd 304) ∧
    applyEvents db
      (putProfileHandler db true (some user) nickname introduction vN vI).1 = db := by
  refine ⟨?_, ?_⟩ <;> simp [putProfileHandler, hperm, hn, hi, applyEvents]

/-- Witness for the amended C9: permitted user, empty body. -/
theorem C9_amended_empty_update_304_unchanged_witness :
    putProfileHandler
        (DB.mk [] [] [] [] [] [UserRow.mk "u1" "ann" "x" "a@x.com" "Ann" ""]
          [UserPermissionRow.mk "u1" 1]
          [PermissionRelationshipRow.mk 1 PermissionEnum_USER_UPDATE_PROFILE])
        true (some (UserRow.mk "u1" "ann" "x" "a@x.com" "Ann" ""))
        none none (fun _ => true) (fun _ => true) =
      ([], .statusEnd 304) ∧
    applyEvents
        (DB.mk [] [] [] [] [] [UserRow.mk "u1" "ann" "x" "a@x.com" "Ann" ""]
          [UserPermissionRow.mk "u1" 1]
          [PermissionRelationshipRow.mk 1 PermissionEnum_USER_UPDATE_PROFILE])
        (putProfileHandler
          (DB.mk [] [] [] [] [] [UserRow.mk "u1" "ann" "x" "a@x.com" "Ann" ""]
            [UserPermissionRow.mk "u1" 1]
            [PermissionRelationshipRow.mk 1 PermissionEnum_USER_UPDATE_PROFILE])
          true (some (UserRow.mk "u1" "ann" "x" "a@x.com" "Ann" ""))
          none none (fun _ => true) (fun _ => true)).1 =
      (DB.mk [] [] [] [] [] [UserRow.mk "u1" "ann" "x" "a@x.com" "Ann" ""]
        [UserPermissionRow.mk "u1" 1]
        [PermissionRelationshipRow.mk 1 PermissionEnum_USER_UPDATE_PROFILE]) :=
  C9_amended_empty_update_304_unchanged
    (DB.mk [] [] [] [] [] [UserRow.mk "u1" "ann" "x" "a@x.com" "Ann" ""]
      [UserPermissionRow.mk "u1" 1]
      [PermissionRelationshipRow.mk 1 PermissionEnum_USER_UPDATE_PROFILE])
    (UserRow.mk "u1" "ann" "x" "a@x.com" "Ann" "")
    none none (fun _ => true) (fun _ => true) (by decide) (by decide) (by decide)

/-- C4 counterexample: with the user `ann` stored, a wrong password for
`ann` and a wrong password for the absent `bob` both get status 400 but
with different error messages, so the two responses are not identical and
an observer learns whether the username exists. -/
theorem C4_counterexample_signin_reveals_username_existence :
    signinHandler
        (DB.mk [] [] [] [] []
          [UserRow.mk "u1" "ann" (bcrypt_hashSync "pw") "a@x.com" "Ann" ""] [] [])
        (some "ann") (some "wrong") 0 =
      ([.selectUserByUsername "ann"], .nextError 400 Locale_IncorrectPassword) ∧
    signinHandler
        (DB.mk [] [] [] [] []
          [UserRow.mk "u1" "ann" (bcrypt_hashSync "pw") "a@x.com" "Ann" ""] [] [])
        (some "bob") (some "wrong") 0 =
      ([.selectUserByUsername "bob"], .nextError 400 Locale_UserNotFound) ∧
    SigninResult.nextError 400 Locale_IncorrectPassword ≠
      SigninResult.nextError 400 Locale_UserNotFound :=
  ⟨by decide, by decide, by decide⟩

/-- C4 (amended): a signin whose password does not match gets status 400
whether or not the username exists, but the error messages differ
(IncorrectPassword for an existing user, UserNotFound otherwise), so the
two cases are observably distinct. -/
theorem C4_amended_signin_400_with_distinct_messages
    (db : DB) (username password : Option String) (now : Nat)
    (hu : jsFalsyStr username = false) (hp : jsFalsyStr password = false) :
    (∀ user, db.users.find? (fun u => u.username == username.getD "") = some user →
        bcrypt_compareSync (password.getD "") user.password = false →
        signinHandler db username password now =
          ([.selectUserByUsername (username.getD "")],
           .nextError 400 Locale_IncorrectPassword)) ∧
    (db.users.find? (fun u => u.username == username.getD "") = none →
        signinHandler db username password now =
          ([.selectUserByUsername (username.getD "")],
           .nextError 400 Locale_UserNotFound)) ∧
    Locale_IncorrectPassword ≠ Locale_UserNotFound := by
  refine ⟨?_, ?_, by decide⟩
  · intro user hf hw
    simp [signinHandler, hu, hp, hf, hw]
  · intro hf
    simp [signinHandler, hu, hp, hf]

/-- Witness for the amended C4 at a concrete store and request. -/
theorem C4_amended_signin_400_with_distinct_messages_witness :
    (∀ user,
        (DB.mk [] [] [] [] []
          [UserRow.mk "u1" "ann" (bcrypt_hashSync "pw") "a@x.com" "Ann" ""] [] []).users.find?
            (fun u => u.username == (some "ann").getD "") = some user →
        bcrypt_compareSync ((some "wrong").getD "") user.password = false →
        signinHandler
            (DB.mk [] [] [] [] []
              [UserRow.mk "u1" "ann" (bcrypt_hashSync "pw") "a@x.com" "Ann" ""] [] [])
            (some "ann") (some "wrong") 0 =
          ([.selectUserByUsername ((some "ann").getD "")],
           .nextError 400 Locale_IncorrectPassword)) ∧
    ((DB.mk [] [] [] [] []
        [UserRow.mk "u1" "ann" (bcrypt_hashSync "pw") "a@x.com" "Ann" ""] [] []).users.find?
          (fun u => u.username == (some "ann").getD "") = none →
        signinHandler
            (DB.mk [] [] [] [] []
              [UserRow.mk "u1" "ann" (bcrypt_hashSync "pw") "a@x.com" "Ann" ""] [] [])
            (some "ann") (some "wrong") 0 =
          ([.selectUserByUsername ((some "ann").getD "")],
           .nextError 400 Locale_UserNotFound)) ∧
    Locale_IncorrectPassword ≠ Locale_UserNotFound :=
  C4_amended_signin_400_with_distinct_messages
    (DB.mk [] [] [] [] []
      [UserRow.mk "u1" "ann" (bcrypt_hashSync "pw") "a@x.com" "Ann" ""] [] [])
    (some "ann") (some "wrong") 0 (by decide) (by decide)

/-- C8 counterexample: a signup request whose username `ann` already
exists but whose email field is missing is rejected as
MissingRequiredFields, not as the "user already exists" error the claim
promises for every duplicate-username request. -/
theorem C8_counterexample_duplicate_username_other_error :
    (DB.mk [] [] [] [] []
        [UserRow.mk "u1" "ann" (bcrypt_hashSync "pw") "a@x.com" "Ann" ""] [] []).users.any
      (fun u => u.username == "ann") = true ∧
    signupHandler
        (DB.mk [] [] [] [] []
          [UserRow.mk "u1" "ann" (bcrypt_hashSync "pw") "a@x.com" "Ann" ""] [] [])
        (SignupBody.mk (some "ann") (some "p") none (some "Ann") none)
        (fun _ => true) (fun _ => true) (fun _ => true) "u2" =
      ([], .nextError 400 Locale_MissingRequiredFields) ∧
    Locale_MissingRequiredFields ≠ Locale_UserAlreadyExists :=
  ⟨by decide, by decide, by decide⟩

/-- C8 (amended): whenever the requested username already exists, signup
never inserts a row (the users table is unchanged under every branch);
and if the request passes the field-presence and format validations, the
response is the 400 UserAlreadyExists error. -/
theorem C8_amended_duplicate_username_no_insert (db : DB) (body : SignupBody)
    (vN : Option String → Bool) (vE : String → Bool) (vI : Option String → Bool)
    (newId : String)
    (hdup : db.users.any (fun u => u.username == body.username.getD "") = true) :
    applyEvents db (signupHandler db body vN vE vI newId).1 = db ∧
    (jsFalsyStr body.username = false → jsFalsyStr body.password = false →
      jsFalsyStr body.email = false → jsFalsyStr body.nickname = false →
      vN body.nickname = true → vE (body.email.getD "") = true →
      vI body.introduction = true →
      signupHandler db body vN vE vI newId =
        ([.selectUserByUsername (body.username.getD "")],
         .nextError 400 Locale_UserAlreadyExists)) := by
  constructor
  · unfold signupHandler
    split
    · rfl
    · split
      · rfl
      · split
        · rfl
        · split
          · rfl
          · simp [hdup, applyEvents, applyEvent]
  · intro h1 h2 h3 h4 h5 h6 h7
    simp [signupHandler, h1, h2, h3, h4, h5, h6, h7, hdup]

/-- Witness for the amended C8: duplicate username with all validations
passing. -/
theorem C8_amended_duplicate_username_no_insert_witness :
    applyEvents
        (DB.mk [] [] [] [] []
          [UserRow.mk "u1" "ann" (bcrypt_hashSync "pw") "a@x.com" "Ann" ""] [] [])
        (signupHandler
          (DB.mk [] [] [] [] []
            [UserRow.mk "u1" "ann" (bcrypt_hashSync "pw") "a@x.com" "Ann" ""] [] [])
          (SignupBody.mk (some "ann") (some "p") (some "b@x.com") (some "Ann") none)
          (fun _ => true) (fun _ => true) (fun _ => true) "u2").1 =
      (DB.mk [] [] [] [] []
        [UserRow.mk "u1" "ann" (bcrypt_hashSync "pw") "a@x.com" "Ann" ""] [] []) ∧
    (jsFalsyStr (some "ann") = false → jsFalsyStr (some "p") = false →
      jsFalsyStr (some "b@x.com") = false → jsFalsyStr (some "Ann") = false →
      (fun (_ : Option String) => true) (some "Ann") = true →
      (fun (_ : String) => true) ((some "b@x.com").getD "") = true →
      (fun (_ : Option String) => true) (none : Option String) = true →
      signupHandler
          (DB.mk [] [] [] [] []
            [UserRow.mk "u1" "ann" (bcrypt_hashSync "pw") "a@x.com" "Ann" ""] [] [])
          (SignupBody.mk (some "ann") (some "p") (some "b@x.com") (some "Ann") none)
          (fun _ => true) (fun _ => true) (fun _ => true) "u2" =
        ([.selectUserByUsername ((some "ann").getD "")],
         .nextError 400 Locale_UserAlreadyExists)) :=
  C8_amended_duplicate_username_no_insert
    (DB.mk [] [] [] [] []
      [UserRow.mk "u1" "ann" (bcrypt_hashSync "pw") "a@x.com" "Ann" ""] [] [])
    (SignupBody.mk (some "ann") (some "p") (some "b@x.com") (some "Ann") none)
    (fun _ => true) (fun _ => true) (fun _ => true) "u2" (by decide)

/-- C3: `createComic` wraps the comic insert and the tag-join insert in
one transaction: either it succeeds, its trace commits, and applying the
trace adds exactly the comic row and every tag-association row; or it
fails at any point, the trace rolls back, applying it leaves the
database unchanged, and the error is re-thrown to the caller. -/
theorem C3_createComic_transactional (db : DB)
    (id name description postedBy author category : String)
    (tags : Option (List String)) (thumbnail : Option String) (now : Nat) :
    (∃ comic,
        (createComic db id name description postedBy author category
            tags thumbnail now).2 = .ok comic ∧
        applyEvents db
            (createComic db id name description postedBy author category
              tags thumbnail now).1 =
          { db with
              comics := db.comics ++ [comic],
              comicBookTags := db.comicBookTags ++
                ((tags.getD []).map (fun t => ComicBookTagRow.mk id t)) }) ∨
    ((∃ e, (createComic db id name description postedBy author category
          tags thumbnail now).2 = .error e) ∧
      (createComic db id name description postedBy author category
          tags thumbnail now).1.getLast? = some DBEvent.rollback ∧
      applyEvents db
          (createComic db id name description postedBy author category
            tags thumbnail now).1 = db) := by
  by_cases hdup : db.comics.any (fun c => c.id == id) = true
  · right
    refine ⟨⟨"duplicate primary key", ?_⟩, ?_, ?_⟩ <;>
      simp [createComic, hdup, applyEvents, applyEventsTx, applyEvent]
  · cases tags with
    | none =>
      right
      refine ⟨⟨"TypeError: tags.map is not a function", ?_⟩, ?_, ?_⟩ <;>
        simp [createComic, hdup, applyEvents, applyEventsTx, applyEvent]
    | some ts =>
      left
      refine ⟨⟨id, name, description, postedBy, thumbnail, now, now,
        slugify name, 0, 0, author, category⟩, ?_, ?_⟩ <;>
        simp [createComic, hdup, applyEvents, applyEventsTx, applyEvent]

/-- C7: with a valid comicId and a filter supplying limit `L` and page
`P` but no sort options, the chapter-list query uses offset `P * L`
(zero-based pages) and its result is ordered by `createdAt` ascending. -/
theorem C7_chapter_pagination_offset_and_default_order
    (db : DB) (comicId : String) (L P : Nat)
    (h : (comicId == "" || !validator_isUUID comicId) = false) :
    ∃ rows,
      getChaptersFromComic db comicId
          (some (ChapterFilter.mk (some L) (some P) none none)) =
        ([.selectChaptersOfComic comicId (jsOrNat (some L) 3) (P * L)
            "createdAt" "asc"],
         .ok rows) ∧
      rows.Pairwise (fun a b => a.createdAt ≤ b.createdAt) := by
  have htot : ∀ a b : ComicChapterRow,
      chapterFieldLe "createdAt" a b = true ∨ chapterFieldLe "createdAt" b a = true := by
    intro a b
    simp only [chapterFieldLe, decide_eq_true_eq]
    omega
  have htrans : ∀ a b c : ComicChapterRow,
      chapterFieldLe "createdAt" a b = true → chapterFieldLe "createdAt" b c = true →
        chapterFieldLe "createdAt" a c = true := by
    intro a b c
    simp only [chapterFieldLe, decide_eq_true_eq]
    omega
  refine ⟨(((sortLe (fun a b => chapterFieldLe "createdAt" a b)
      (db.comicChapters.filter (fun c => c.comicId == comicId))).drop (P * L)).take
        (jsOrNat (some L) 3)), ?_, ?_⟩
  · simp [getChaptersFromComic, h, jsOrStr]
  · have hs := pairwise_sortLe htot htrans
      (db.comicChapters.filter (fun c => c.comicId == comicId))
    have hsub :
        ((((sortLe (fun a b => chapterFieldLe "createdAt" a b)
          (db.comicChapters.filter (fun c => c.comicId == comicId))).drop
            (P * L)).take (jsOrNat (some L) 3))).Sublist
          (sortLe (fun a b => chapterFieldLe "createdAt" a b)
            (db.comicChapters.filter (fun c => c.comicId == comicId))) :=
      (List.take_sublist _ _).trans (List.drop_sublist _ _)
    have hp := List.Pairwise.sublist hsub hs
    exact hp.imp (by intro a b hab; simpa [chapterFieldLe] using hab)

/-- Witness for C7: two chapters out of creation order, limit 2, page 0. -/
theorem C7_chapter_pagination_offset_and_default_order_witness :
    ∃ rows,
      getChaptersFromComic
          (DB.mk [] [] [] []
            [ComicChapterRow.mk "c1" "Two" "22222222-2222-4222-9222-222222222222"
              "u1" 1 7 7 0,
             ComicChapterRow.mk "c2" "One" "22222222-2222-4222-9222-222222222222"
              "u1" 1 3 3 0] [] [] [])
          "22222222-2222-4222-9222-222222222222"
          (some (ChapterFilter.mk (some 2) (some 0) none none)) =
        ([.selectChaptersOfComic "22222222-2222-4222-9222-222222222222"
            (jsOrNat (some 2) 3) (0 * 2) "createdAt" "asc"],
         .ok rows) ∧
      rows.Pairwise (fun a b => a.createdAt ≤ b.createdAt) :=
  C7_chapter_pagination_offset_and_default_order
    (DB.mk [] [] [] []
      [ComicChapterRow.mk "c1" "Two" "22222222-2222-4222-9222-222222222222"
        "u1" 1 7 7 0,
       ComicChapterRow.mk "c2" "One" "22222222-2222-4222-9222-222222222222"
        "u1" 1 3 3 0] [] [] [])
    "22222222-2222-4222-9222-222222222222" 2 0 (by decide)

/-- C6: the comic row built by `createComic` stores `slugify name` as its
slug; `updateComic` writes a patch whose slug is recomputed from the new
name by the identical `slugify` derivation; and every slug is lowercase
with all of the characters `* + ~ . ( ) ' " ! : @` removed. -/
theorem C6_slug_derivation (db : DB)
    (id name description postedBy author category : String)
    (tags : Option (List String)) (thumbnail : Option String) (now : Nat)
    (hid : (id == "" || !validator_isUUID id) = false) :
    (∀ comic, (createComic db id name description postedBy author category
        tags thumbnail now).2 = .ok comic → comic.slug = slugify name) ∧
    (∃ rest, (updateComic db id name description author category
        tags thumbnail now).1 =
      DBEvent.beginTx ::
        DBEvent.updateComicById id
          (ComicPatch.mk name description now (slugify name) author category
            thumbnail) :: rest) ∧
    (∀ s : String, ∀ c ∈ (slugify s).data,
        slugRemoveSet.contains c = false ∧ ¬(65 ≤ c.toNat ∧ c.toNat ≤ 90)) := by
  refine ⟨?_, ?_, fun s => slugify_char_property s⟩
  · intro comic hc
    by_cases hdup : db.comics.any (fun c => c.id == id) = true
    · simp [createComic, hdup] at hc
    · cases tags with
      | none => simp [createComic, hdup] at hc
      | some ts =>
        simp [createComic, hdup] at hc
        rw [← hc]
  · cases tags with
    | none =>
      exact ⟨[DBEvent.rollback], by simp [updateComic, hid]⟩
    | some ts =>
      exact ⟨[DBEvent.insertComicBookTags
          (ts.map (fun t => ComicBookTagRow.mk id t)), DBEvent.commit],
        by simp [updateComic, hid]⟩

/-- Witness for C6 at a concrete comic name with punctuation and
uppercase. -/
theorem C6_slug_derivation_witness :
    (∀ comic, (createComic (DB.mk [] [] [] [] [] [] [] [])
        "33333333-3333-4333-9333-333333333333" "Hello World! (Draft)" "d" "u"
        "Auth" "Comic" (some ["t1"]) (some "r1") 0).2 = .ok comic →
        comic.slug = slugify "Hello World! (Draft)") ∧
    (∃ rest, (updateComic (DB.mk [] [] [] [] [] [] [] [])
        "33333333-3333-4333-9333-333333333333" "Hello World! (Draft)" "d"
        "Auth" "Comic" (some ["t1"]) (some "r1") 0).1 =
      DBEvent.beginTx ::
        DBEvent.updateComicById "33333333-3333-4333-9333-333333333333"
          (ComicPatch.mk "Hello World! (Draft)" "d" 0
            (slugify "Hello World! (Draft)") "Auth" "Comic" (some "r1")) :: rest) ∧
    (∀ s : String, ∀ c ∈ (slugify s).data,
        slugRemoveSet.contains c = false ∧ ¬(65 ≤ c.toNat ∧ c.toNat ≤ 90)) :=
  C6_slug_derivation (DB.mk [] [] [] [] [] [] [] [])
    "33333333-3333-4333-9333-333333333333" "Hello World! (Draft)" "d" "u"
    "Auth" "Comic" (some ["t1"]) (some "r1") 0 (by decide)

/-- Joining the freshly inserted tag rows back against the tag table
returns exactly the supplied tag ids when each of them has a tag row. -/
theorem tagViews_ids (db : DB) (id : String) :
    ∀ ts : List String,
      (∀ t ∈ ts, (db.comicTags.find? (fun tg => tg.id == t)).isSome = true) →
      ((ts.map (fun t => ComicBookTagRow.mk id t)).filterMap
        (fun bt => (db.comicTags.find? (fun tg => tg.id == bt.tagId)).map
          (fun tg => TagView.mk bt.tagId tg.keyword))).map (fun v => v.id) = ts := by
  intro ts
  induction ts with
  | nil => intro _; rfl
  | cons t rest ih =>
    intro h
    have ht := h t (List.mem_cons_self t rest)
    obtain ⟨tg, htg⟩ := Option.isSome_iff_exists.mp ht
    simp only [List.map_cons, List.filterMap_cons, htg, Option.map_some']
    rw [ih (fun x hx => h x (List.mem_cons_of_mem t hx))]

/-- C5 counterexample: creating a comic with the tag id `ghost`, which
has no row in the tag table, succeeds; reading the comic back returns an
empty tag list instead of the supplied one. -/
theorem C5_counterexample_unknown_tag_dropped :
    ((createComic
        (DB.mk [] [] [] [ResourceRow.mk "r1" "thumb.png"] [] [] [] [])
        "44444444-4444-4444-9444-444444444444" "N" "D" "u" "A" "C"
        (some ["ghost"]) (some "r1") 0).2.isOk = true) ∧
    (((getComic
        (applyEvents
          (DB.mk [] [] [] [ResourceRow.mk "r1" "thumb.png"] [] [] [] [])
          (createComic
            (DB.mk [] [] [] [ResourceRow.mk "r1" "thumb.png"] [] [] [] [])
            "44444444-4444-4444-9444-444444444444" "N" "D" "u" "A" "C"
            (some ["ghost"]) (some "r1") 0).1)
        "44444444-4444-4444-9444-444444444444").2.toOption.map
          (fun v => v.tags.map (fun t => t.id))) = some []) ∧
    some ([] : List String) ≠ some ["ghost"] :=
  ⟨by decide, by decide, by decide⟩

/-- C5 (amended): create-then-read returns exactly the supplied tag
list, provided the created id is fresh, the thumbnail references a
stored resource, and every supplied tag id has a row in the tag table
(tag ids without a tag-table row are silently dropped by the read-side
join, and a missing resource makes the read throw). -/
theorem C5_amended_roundtrip_tags_exact (db : DB)
    (id name description postedBy author category : String)
    (ts : List String) (th : String) (resource : ResourceRow) (now : Nat)
    (hid : (id == "" || !validator_isUUID id) = false)
    (hfresh : db.comics.any (fun c => c.id == id) = false)
    (hfreshTags : db.comicBookTags.filter (fun bt => bt.comicId == id) = [])
    (hres : db.resources.find? (fun r => some r.id == some th) = some resource)
    (htags : ∀ t ∈ ts, (db.comicTags.find? (fun tg => tg.id == t)).isSome = true) :
    ∃ comic,
      (createComic db id name description postedBy author category
          (some ts) (some th) now).2 = .ok comic ∧
      (((getComic
          (applyEvents db
            (createComic db id name description postedBy author category
              (some ts) (some th) now).1)
          id).2.toOption.map (fun v => v.tags.map (fun t => t.id))) = some ts) := by
  have hnone : db.comics.find? (fun c => c.id == id) = none := by
    rw [List.find?_eq_none]
    intro x hx
    have hx2 := List.any_eq_false.mp hfresh x hx
    simpa using hx2
  refine ⟨⟨id, name, description, postedBy, some th, now, now,
    slugify name, 0, 0, author, category⟩, ?_, ?_⟩
  · simp [createComic, hfresh]
  · have hdb : applyEvents db
        (createComic db id name description postedBy author category
          (some ts) (some th) now).1 =
        { db with
            comics := db.comics ++ [⟨id, name, description, postedBy, some th,
              now, now, slugify name, 0, 0, author, category⟩],
            comicBookTags := db.comicBookTags ++
              ts.map (fun t => ComicBookTagRow.mk id t) } := by
      simp [createComic, hfresh, applyEvents, applyEventsTx, applyEvent]
    rw [hdb]
    have hfind : (db.comics ++ [(⟨id, name, description, postedBy, some th,
        now, now, slugify name, 0, 0, author, category⟩ : ComicRow)]).find?
          (fun c => c.id == id) =
        some ⟨id, name, description, postedBy, some th, now, now,
          slugify name, 0, 0, author, category⟩ := by
      rw [List.find?_append, hnone]
      simp [List.find?]
    have hfilterRows : (ts.map (fun t => ComicBookTagRow.mk id t)).filter
        (fun bt => bt.comicId == id) = ts.map (fun t => ComicBookTagRow.mk id t) := by
      rw [List.filter_eq_self]
      intro bt hbt
      rw [List.mem_map] at hbt
      obtain ⟨t, _, hbt⟩ := hbt
      rw [← hbt]
      simp
    simp only [getComic, hid, Bool.false_eq_true, if_false, hfind, hres,
      List.filter_append, hfreshTags, hfilterRows, List.nil_append]
    simp only [Except.toOption, Option.map_some']
    rw [Option.some_inj]
    exact tagViews_ids db id ts htags

/-- Witness for the amended C5: one known tag id and a stored thumbnail
resource. -/
theorem C5_amended_roundtrip_tags_exact_witness :
    ∃ comic,
      (createComic
          (DB.mk [] [] [ComicTagRow.mk "g1" "action"]
            [ResourceRow.mk "r1" "thumb.png"] [] [] [] [])
          "55555555-5555-4555-9555-555555555555" "N" "D" "u" "A" "C"
          (some ["g1"]) (some "r1") 0).2 = .ok comic ∧
      (((getComic
          (applyEvents
            (DB.mk [] [] [ComicTagRow.mk "g1" "action"]
              [ResourceRow.mk "r1" "thumb.png"] [] [] [] [])
            (createComic
              (DB.mk [] [] [ComicTagRow.mk "g1" "action"]
                [ResourceRow.mk "r1" "thumb.png"] [] [] [] [])
              "55555555-5555-4555-9555-555555555555" "N" "D" "u" "A" "C"
              (some ["g1"]) (some "r1") 0).1)
          "55555555-5555-4555-9555-555555555555").2.toOption.map
            (fun v => v.tags.map (fun t => t.id))) = some ["g1"]) :=
  C5_amended_roundtrip_tags_exact
    (DB.mk [] [] [ComicTagRow.mk "g1" "action"]
      [ResourceRow.mk "r1" "thumb.png"] [] [] [] [])
    "55555555-5555-4555-9555-555555555555" "N" "D" "u" "A" "C" ["g1"] "r1"
    (ResourceRow.mk "r1" "thumb.png") 0 (by decide) (by decide) (by decide)
    (by decide) (by decide)
